import Mathlib

/-!
Verification development for the mvg client library (src/src/mvg/mvgapi.py).

The Python module is shallowly embedded: the upstream HTTP service is an
oracle mapping an endpoint and the query arguments to an HTTP outcome; JSON
values are an inductive type with exact rational numbers (the embedding
idealizes IEEE floats by exact rational arithmetic, which agrees with the
source on all epoch-millisecond timestamps handled by the API, as these are
far below 2 to the 53); Python exceptions become an error type carried in
Except.  Every definition mirrors one function of the source file,
including its quirks (the unanchored regular expression in
valid_station_id, the coordinates taken from the first search result in
nearby_multi_async and station_async, the stations endpoint queried by the
blocking lines wrapper, the silently skipped assignment in the constructor
when a station does not resolve).
-/

/-- Python exception classes raised by the module: ValueError and the
module class MvgApiError, plus the builtin exceptions that the parsing
code can raise and catch (KeyError, AssertionError) or let escape
(TypeError, AttributeError). -/
inductive PyError where
  | valueError (msg : String)
  | mvgApiError (msg : String)
  | keyError (key : String)
  | typeError (msg : String)
  | assertionError
  | attributeError (attr : String)
deriving DecidableEq

/-- The exception class of an outcome, for telling error kinds apart the
way a Python caller can with except clauses. -/
inductive ErrKind where
  | value
  | mvgApi
  | key
  | type
  | assert
  | attr
deriving DecidableEq

/-- Exception class of a computation result: none on success. -/
def pyErrKind {α : Type} : Except PyError α → Option ErrKind
  | .ok _ => none
  | .error (.valueError _) => some .value
  | .error (.mvgApiError _) => some .mvgApi
  | .error (.keyError _) => some .key
  | .error (.typeError _) => some .type
  | .error .assertionError => some .assert
  | .error (.attributeError _) => some .attr

/-- JSON values decoded from an API response.  Numbers are exact rationals. -/
inductive Json where
  | null
  | bool (b : Bool)
  | num (q : Rat)
  | str (s : String)
  | arr (xs : List Json)
  | obj (kvs : List (String × Json))

/-- Python equality test of a decoded JSON value against a str: strings
compare by value, every other type compares unequal to a str. -/
def Json.eqStr : Json → String → Bool
  | .str s, q => s == q
  | _, _ => false

/-- Whether the decoded value is a JSON array (a Python list). -/
def Json.isArr : Json → Bool
  | .arr _ => true
  | _ => false

/-- Python subscript d[k] on a decoded JSON value: a missing key raises
KeyError, subscripting a non-dict with a string raises TypeError. -/
def jget (j : Json) (k : String) : Except PyError Json :=
  match j with
  | .obj kvs =>
    match kvs.find? (fun kv => kv.1 == k) with
    | some kv => .ok kv.2
    | none => .error (.keyError k)
  | _ => .error (.typeError "object is not subscriptable")

/-- The embedding of the statement `assert isinstance(result, list)`
followed by using the elements: AssertionError unless the value is a list. -/
def assertList : Json → Except PyError (List Json)
  | .arr xs => .ok xs
  | _ => .error .assertionError

/-- The embedding of `except (AssertionError, KeyError) as exc:
raise MvgApiError(msg) from exc` wrapped around a block: those two
exception classes are converted, every other outcome passes through. -/
def tryMvg {α : Type} (msg : String) (body : Except PyError α) : Except PyError α :=
  match body with
  | .error (.keyError _) => .error (.mvgApiError msg)
  | .error .assertionError => .error (.mvgApiError msg)
  | other => other

/-- Python str.strip on the character list: drop whitespace at both ends. -/
def pyStripL (l : List Char) : List Char :=
  ((l.dropWhile Char.isWhitespace).reverse.dropWhile Char.isWhitespace).reverse

/-- Python str.strip (the source only ever strips whitespace). -/
def pyStrip (s : String) : String := String.mk (pyStripL s.data)

/-- MVG products defined by the API (class TransportType of the source),
in declaration order.  Each member carries a display name and an icon. -/
inductive TransportType where
  | BAHN
  | SBAHN
  | UBAHN
  | TRAM
  | BUS
  | REGIONAL_BUS
  | SEV
  | SCHIFF
deriving DecidableEq

/-- The Python enum member name (c.name). -/
def TransportType.pyName : TransportType → String
  | .BAHN => "BAHN"
  | .SBAHN => "SBAHN"
  | .UBAHN => "UBAHN"
  | .TRAM => "TRAM"
  | .BUS => "BUS"
  | .REGIONAL_BUS => "REGIONAL_BUS"
  | .SEV => "SEV"
  | .SCHIFF => "SCHIFF"

/-- The display name (value[0] of the enum member). -/
def TransportType.displayName : TransportType → String
  | .BAHN => "Bahn"
  | .SBAHN => "S-Bahn"
  | .UBAHN => "U-Bahn"
  | .TRAM => "Tram"
  | .BUS => "Bus"
  | .REGIONAL_BUS => "Regionalbus"
  | .SEV => "SEV"
  | .SCHIFF => "Schiff"

/-- The icon (value[1] of the enum member). -/
def TransportType.icon : TransportType → String
  | .BAHN => "mdi:train"
  | .SBAHN => "mdi:subway-variant"
  | .UBAHN => "mdi:subway"
  | .TRAM => "mdi:tram"
  | .BUS => "mdi:bus"
  | .REGIONAL_BUS => "mdi:bus"
  | .SEV => "mdi:taxi"
  | .SCHIFF => "mdi:ferry"

/-- Iteration order of the enum class (for c in cls). -/
def TransportType.declList : List TransportType :=
  [.BAHN, .SBAHN, .UBAHN, .TRAM, .BUS, .REGIONAL_BUS, .SEV, .SCHIFF]

/-- TransportType.all of the source:
[getattr(TransportType, c.name) for c in cls if c.name != "SEV"]. -/
def TransportType.all : List TransportType :=
  TransportType.declList.filter (fun c => c.pyName != "SEV")

/-- Python enum lookup TransportType[name]. -/
def TransportType.fromName (s : String) : Option TransportType :=
  TransportType.declList.find? (fun t => t.pyName == s)

/-- Embedding of bool(re.match("de:[0-9]{2,5}:[0-9]+", s)) on the character
list.  re.match anchors at the start of the string only; since the digit
run demanded before the second colon is followed by a non-digit, the
backtracking search succeeds exactly when the maximal digit run after
the literal three-character opening has length 2 to 5 and is followed by a
colon and at least one digit, which is what this scanner tests. -/
def vdvTail : List Char → Bool
  | c4 :: c5 :: _ => c4 == ':' && c5.isDigit
  | _ => false

def vdvScan (s : List Char) : Bool :=
  match s with
  | c1 :: c2 :: c3 :: rest =>
    c1 == 'd' && c2 == 'e' && c3 == ':' &&
      (decide (2 ≤ (rest.takeWhile Char.isDigit).length) &&
       decide ((rest.takeWhile Char.isDigit).length ≤ 5) &&
       vdvTail (rest.dropWhile Char.isDigit))
  | _ => false

/-- MvgApi.valid_station_id of the source without existence validation
(validate_existance left at its default False): a pure format test, no
network interaction for any input. -/
def MvgApi.valid_station_id (station_id : String) : Bool :=
  vdvScan station_id.data

/-- The spec reading of the pattern, anchored at the start only: the string
begins with the literal de followed by a colon, 2 to 5 digits, a colon and
at least one digit, then anything. -/
def VdvAt0 (l : List Char) : Prop :=
  ∃ a b r, l = 'd' :: 'e' :: ':' :: (a ++ ':' :: (b ++ r)) ∧
    (∀ c ∈ a, c.isDigit = true) ∧ 2 ≤ a.length ∧ a.length ≤ 5 ∧
    (∀ c ∈ b, c.isDigit = true) ∧ b ≠ []

/-- The spec reading of a full match of the pattern de:[0-9]{2,5}:[0-9]+:
the whole string is the literal de, a colon, 2 to 5 digits, a colon and
one or more digits, with nothing after. -/
def VdvFull (l : List Char) : Prop :=
  ∃ a b, l = 'd' :: 'e' :: ':' :: (a ++ ':' :: b) ∧
    (∀ c ∈ a, c.isDigit = true) ∧ 2 ≤ a.length ∧ a.length ≤ 5 ∧
    (∀ c ∈ b, c.isDigit = true) ∧ b ≠ []

/-- Executable full-match scanner used to decide VdvFull on concrete
strings. -/
def vdvFullTail : List Char → Bool
  | c4 :: tail2 => c4 == ':' && !tail2.isEmpty && tail2.all Char.isDigit
  | _ => false

def vdvFullScan (s : List Char) : Bool :=
  match s with
  | c1 :: c2 :: c3 :: rest =>
    c1 == 'd' && c2 == 'e' && c3 == ':' &&
      (decide (2 ≤ (rest.takeWhile Char.isDigit).length) &&
       decide ((rest.takeWhile Char.isDigit).length ≤ 5) &&
       vdvFullTail (rest.dropWhile Char.isDigit))
  | _ => false

/-- MVGAPI_DEFAULT_LIMIT of the source. -/
def MVGAPI_DEFAULT_LIMIT : Int := 10

/-- The endpoints of class Endpoint of the source. -/
inductive Endpoint where
  | FIB_LOCATION
  | FIB_NEARBY
  | FIB_DEPARTURE
  | FIB_CONNECTION
  | ZDM_STATION_IDS
  | ZDM_STATIONS
  | ZDM_LINES
deriving DecidableEq

/-- The path of the endpoint (value[0]). -/
def endpointPath : Endpoint → String
  | .FIB_LOCATION => "/locations"
  | .FIB_NEARBY => "/station/nearby"
  | .FIB_DEPARTURE => "/departure"
  | .FIB_CONNECTION => "/routes"
  | .ZDM_STATION_IDS => "/mvgStationGlobalIds"
  | .ZDM_STATIONS => "/stations"
  | .ZDM_LINES => "/lines"

/-- The base URL of the endpoint (class Base of the source). -/
def endpointBase : Endpoint → String
  | .FIB_LOCATION => "https://www.mvg.de/api/bgw-pt/v3"
  | .FIB_NEARBY => "https://www.mvg.de/api/bgw-pt/v3"
  | .FIB_DEPARTURE => "https://www.mvg.de/api/bgw-pt/v3"
  | .FIB_CONNECTION => "https://www.mvg.de/api/bgw-pt/v3"
  | .ZDM_STATION_IDS => "https://www.mvg.de/.rest/zdm"
  | .ZDM_STATIONS => "https://www.mvg.de/.rest/zdm"
  | .ZDM_LINES => "https://www.mvg.de/.rest/zdm"

/-- furl join of base and endpoint path. -/
def endpointUrl (e : Endpoint) : String := endpointBase e ++ endpointPath e

/-- The accepted query argument names of the endpoint (value[1]). -/
def endpointArgKeys : Endpoint → List String
  | .FIB_LOCATION => ["query"]
  | .FIB_NEARBY => ["latitude", "longitude"]
  | .FIB_DEPARTURE => ["globalId", "limit", "offsetInMinutes"]
  | .FIB_CONNECTION =>
    ["originStationGlobalId", "destinationStationGlobalId", "routingDateTime",
     "limit", "offsetInMinutes"]
  | .ZDM_STATION_IDS => []
  | .ZDM_STATIONS => []
  | .ZDM_LINES => []

/-- Python dict.fromkeys(keys): every key mapped to None. -/
def fromkeysNull (ks : List String) : List (String × Json) :=
  ks.map (fun k => (k, Json.null))

/-- Python dict.update on an insertion-ordered association list: existing
keys are overwritten in place, new keys are appended in order. -/
def pyUpdate (d kvs : List (String × Json)) : List (String × Json) :=
  kvs.foldl
    (fun acc kv =>
      if acc.any (fun p => p.1 == kv.1) then
        acc.map (fun p => if p.1 == kv.1 then (p.1, kv.2) else p)
      else acc ++ [kv])
    d

/-- An HTTP response as seen by the transport adapter: status code,
content type, body text (used in one diagnostic) and the decoded JSON
body (consulted only when the adapter succeeds). -/
structure HttpResponse where
  status : Nat
  contentType : String
  bodyText : String
  json : Json

/-- Outcome of one GET: a response, or an aiohttp.ClientError carrying the
exception type name. -/
inductive HttpOutcome where
  | ok (r : HttpResponse)
  | clientError (excName : String)

/-- The upstream service oracle: what one GET of an endpoint with the given
query arguments returns. -/
def Upstream : Type := Endpoint → List (String × Json) → HttpOutcome

/-- Python int() applied to an exact rational: truncation toward zero. -/
def pyInt (q : Rat) : Int := Int.tdiv q.num (q.den : Int)

/-- Python value / 1000 on a decoded JSON value: numbers (and bools, which
are ints in Python) divide, everything else raises TypeError.  Exact
rational arithmetic stands in for IEEE division, with which it agrees on
every epoch-millisecond input below 2 to the 53. -/
def pyDiv1000 (j : Json) : Except PyError Rat :=
  match j with
  | .num q => .ok (q / 1000)
  | .bool b => .ok ((if b then (1 : Rat) else 0) / 1000)
  | _ => .error (.typeError "unsupported operand type for division")

/-- Python enum subscript TransportType[x] on a decoded JSON value: a
member name yields the member, any other hashable value raises KeyError,
an unhashable value (list, dict) raises TypeError. -/
def ttLookup (j : Json) : Except PyError TransportType :=
  match j with
  | .str s =>
    match TransportType.fromName s with
    | some t => .ok t
    | none => .error (.keyError s)
  | .arr _ => .error (.typeError "unhashable type")
  | .obj _ => .error (.typeError "unhashable type")
  | _ => .error (.keyError "not a member")

/-- [TransportType[t].value[0] for t in x] of the source: iterate the
decoded JSON value (list elements, string characters, dict keys) and map
every element through the enum subscript to its display name. -/
def pyIterTT (j : Json) : Except PyError (List String) :=
  match j with
  | .arr xs => xs.mapM (fun x => Except.map TransportType.displayName (ttLookup x))
  | .str s =>
    s.data.mapM
      (fun c => Except.map TransportType.displayName (ttLookup (.str (String.singleton c))))
  | .obj kvs =>
    kvs.mapM (fun kv => Except.map TransportType.displayName (ttLookup (.str kv.1)))
  | _ => .error (.typeError "argument is not iterable")

def startsWithCL : List Char → List Char → Bool
  | [], _ => true
  | _ :: _, [] => false
  | a :: as, b :: bs => a == b && startsWithCL as bs

def hasSubCL (q : List Char) : List Char → Bool
  | [] => startsWithCL q []
  | c :: t => startsWithCL q (c :: t) || hasSubCL q t

/-- Python membership test x in container on a decoded JSON value: element
equality for a list, substring for a string, key membership for a dict,
TypeError otherwise. -/
def pyContains (container : Json) (x : String) : Except PyError Bool :=
  match container with
  | .arr xs => .ok (xs.any (fun e => e.eqStr x))
  | .str s => .ok (hasSubCL x.data s.data)
  | .obj kvs => .ok (kvs.any (fun kv => kv.1 == x))
  | _ => .error (.typeError "argument is not iterable")

/-- The station dictionary built by station_async, nearby_multi_async and
the constructor: id, name, place, latitude, longitude, and the types list
added only by the nearby queries. -/
structure StationRecord where
  id : Json
  name : Json
  place : Json
  latitude : Json
  longitude : Json
  types : Option (List String)

/-- The departure dictionary built by departures_async. -/
structure DepartureRecord where
  time : Int
  planned : Int
  line : Json
  destination : Json
  type : String
  icon : String
  cancelled : Json
  messages : Json

/-- One iteration of the departures loop of the source: the dictionary
entries are evaluated in source order; the transportType subscript is
evaluated once for the display name and once more for the icon, as in the
source. -/
def parseDeparture (j : Json) : Except PyError DepartureRecord := do
  let rt ← jget j "realtimeDepartureTime"
  let time ← pyDiv1000 rt
  let pt ← jget j "plannedDepartureTime"
  let planned ← pyDiv1000 pt
  let line ← jget j "label"
  let dest ← jget j "destination"
  let tj1 ← jget j "transportType"
  let tt1 ← ttLookup tj1
  let tj2 ← jget j "transportType"
  let tt2 ← ttLookup tj2
  let cancelled ← jget j "cancelled"
  let messages ← jget j "messages"
  pure ⟨pyInt time, pyInt planned, line, dest, tt1.displayName, tt2.icon, cancelled, messages⟩

/-- Checks that every element of the decoded list is a string, returning
the strings. -/
def allStrs : List Json → Option (List String)
  | [] => some []
  | .str s :: rest => (allStrs rest).map (fun l => s :: l)
  | _ => none

/-- Python sorted(result) on the decoded station-id list: a homogeneous
list of strings sorts lexicographically by code points; heterogeneous or
unorderable element types raise TypeError.  The station-id endpoint only
ever returns strings, and every theorem below instantiates it so. -/
def pySortedStrs (xs : List Json) : Except PyError (List Json) :=
  match allStrs xs with
  | some ss => .ok ((List.insertionSort (fun a b => a ≤ b) ss).map Json.str)
  | none => .error (.typeError "unorderable element types")

namespace MvgApi

/-- MvgApi.__api of the source: one GET; non-200 status, wrong content
type, or a transport exception each raise MvgApiError; otherwise the
decoded JSON body is returned. -/
def api (url : String) (o : HttpOutcome) : Except PyError Json :=
  match o with
  | .ok r =>
    if r.status ≠ 200 then
      .error (.mvgApiError
        ("Bad API call: Got response (" ++ toString r.status ++ ") from " ++ url ++
         ": " ++ r.bodyText))
    else if r.contentType ≠ "application/json" then
      .error (.mvgApiError
        ("Bad API call: Got content type " ++ r.contentType ++ " from " ++ url))
    else .ok r.json
  | .clientError excName =>
    .error (.mvgApiError ("Bad API call: Got " ++ excName ++ " from " ++ url))

/-- MvgApi.station_ids_async of the source: fetch the station-id list,
assert it is a list, return it sorted. -/
def station_ids_async (u : Upstream) : Except PyError (List Json) :=
  tryMvg "Bad API call: Could not parse station data"
    (do
      let result ← api (endpointUrl .ZDM_STATION_IDS) (u .ZDM_STATION_IDS [])
      let xs ← assertList result
      pySortedStrs xs)

/-- MvgApi.stations_async of the source. -/
def stations_async (u : Upstream) : Except PyError (List Json) :=
  tryMvg "Bad API call: Could not parse station data"
    (do
      let result ← api (endpointUrl .ZDM_STATIONS) (u .ZDM_STATIONS [])
      assertList result)

/-- MvgApi.lines_async of the source. -/
def lines_async (u : Upstream) : Except PyError (List Json) :=
  tryMvg "Bad API call: Could not parse station data"
    (do
      let result ← api (endpointUrl .ZDM_LINES) (u .ZDM_LINES [])
      assertList result)

/-- Blocking MvgApi.stations of the source: asyncio.run(stations_async()). -/
def stations (u : Upstream) : Except PyError (List Json) := stations_async u

/-- Blocking MvgApi.lines of the source, line 217: its body runs
asyncio.run(MvgApi.stations_async()), so it queries the stations endpoint,
not the lines endpoint. -/
def lines (u : Upstream) : Except PyError (List Json) := stations_async u

/-- The location loop of station_async: the first location whose type
field equals STATION, packed with the coordinates of result[0]. -/
def findStation (first : Json) : List Json → Except PyError (Option StationRecord)
  | [] => pure none
  | loc :: rest => do
    let t ← jget loc "type"
    if t.eqStr "STATION" then do
      let i ← jget loc "globalId"
      let n ← jget loc "name"
      let p ← jget loc "place"
      let la ← jget first "latitude"
      let lo ← jget first "longitude"
      pure (some ⟨i, n, p, la, lo, none⟩)
    else
      findStation first rest

/-- MvgApi.station_async of the source: free-text or id query against the
locations endpoint; empty result is None; a valid station id returns the
id with name, place and coordinates of the first result; otherwise the
first location of type STATION. -/
def station_async (query : String) (u : Upstream) : Except PyError (Option StationRecord) :=
  let q := pyStrip query
  tryMvg "Bad API call: Could not parse station data"
    (do
      let result ← api (endpointUrl .FIB_LOCATION)
        (u .FIB_LOCATION
          (pyUpdate (fromkeysNull (endpointArgKeys .FIB_LOCATION))
            [("query", Json.str (pyStrip q))]))
      let locs ← assertList result
      match locs with
      | [] => pure none
      | first :: _ =>
        if valid_station_id q then do
          let n ← jget first "name"
          let p ← jget first "place"
          let la ← jget first "latitude"
          let lo ← jget first "longitude"
          pure (some ⟨Json.str (pyStrip q), n, p, la, lo, none⟩)
        else
          findStation first locs)

/-- Blocking MvgApi.station of the source: asyncio.run(station_async(query)). -/
def station (query : String) (u : Upstream) : Except PyError (Option StationRecord) :=
  station_async query u

/-- One iteration of the location loop of nearby_multi_async: keep the
location when its transportTypes value meets any requested type name; the
dictionary takes id, name and place from the location but latitude and
longitude from result[0], as the source does. -/
def buildStation (first : Json) (qnames : List String) (loc : Json) :
    Except PyError (Option StationRecord) := do
  let ltt ← jget loc "transportTypes"
  let bs ← qnames.mapM (fun q => pyContains ltt q)
  if bs.any id then do
    let i ← jget loc "globalId"
    let n ← jget loc "name"
    let p ← jget loc "place"
    let la ← jget first "latitude"
    let lo ← jget first "longitude"
    let ts ← pyIterTT ltt
    pure (some ⟨i, n, p, la, lo, some ts⟩)
  else
    pure none

/-- The location loop of nearby_multi_async over the whole result list. -/
def nearbyStations (locs : List Json) (qnames : List String) :
    Except PyError (List StationRecord) :=
  Except.map (List.filterMap id) (locs.mapM (buildStation (locs.headD Json.null) qnames))

/-- MvgApi.nearby_multi_async of the source up to the limit step: the GET,
the list assertion, the default transport types, the filtered station
list. -/
def nearby_multi_stations (latitude longitude : Rat)
    (transport_types : Option (List TransportType)) (u : Upstream) :
    Except PyError (List StationRecord) := do
  let result ← api (endpointUrl .FIB_NEARBY)
    (u .FIB_NEARBY
      (pyUpdate (fromkeysNull (endpointArgKeys .FIB_NEARBY))
        [("latitude", Json.num latitude), ("longitude", Json.num longitude)]))
  let locs ← assertList result
  let tts := match transport_types with | none => TransportType.all | some l => l
  nearbyStations locs (tts.map TransportType.pyName)

/-- MvgApi.nearby_multi_async of the source: a negative limit returns all
stations, otherwise the slice stations[:limit]. -/
def nearby_multi_async (latitude longitude : Rat)
    (transport_types : Option (List TransportType)) (limit : Int) (u : Upstream) :
    Except PyError (List StationRecord) :=
  tryMvg "Bad API call: Could not parse station data"
    (do
      let sts ← nearby_multi_stations latitude longitude transport_types u
      if limit < 0 then pure sts else pure (sts.take limit.toNat))

/-- MvgApi.nearby_async of the source: nearby_multi_async with limit 1,
then None on an empty list, else the first station. -/
def nearby_async (latitude longitude : Rat)
    (transport_types : Option (List TransportType)) (u : Upstream) :
    Except PyError (Option StationRecord) :=
  Except.map (fun sts => sts.head?)
    (nearby_multi_async latitude longitude transport_types 1 u)

/-- Blocking MvgApi.nearby of the source. -/
def nearby (latitude longitude : Rat)
    (transport_types : Option (List TransportType)) (u : Upstream) :
    Except PyError (Option StationRecord) :=
  nearby_async latitude longitude transport_types u

/-- Blocking MvgApi.nearby_multi of the source. -/
def nearby_multi (latitude longitude : Rat)
    (transport_types : Option (List TransportType)) (limit : Int) (u : Upstream) :
    Except PyError (List StationRecord) :=
  nearby_multi_async latitude longitude transport_types limit u

/-- The query arguments sent by departures_async: dict.fromkeys of the
FIB_LOCATION keys (a quirk of the source, line 513), updated with
globalId, offsetInMinutes, limit, then the comma-joined type names. -/
def depArgs (station_id : String) (limit offset : Int) (tts : List TransportType) :
    List (String × Json) :=
  pyUpdate
    (pyUpdate (fromkeysNull (endpointArgKeys .FIB_LOCATION))
      [("globalId", Json.str station_id), ("offsetInMinutes", Json.num (offset : Rat)),
       ("limit", Json.num (limit : Rat))])
    [("transportTypes", Json.str (String.intercalate "," (tts.map TransportType.pyName)))]

/-- MvgApi.departures_async of the source: the format check raises
ValueError before the request (the bare station_id.strip() on line 508
discards its result, so the raw argument is validated); then one GET, the
list assertion, and the departure loop. -/
def departures_async (station_id : String) (limit offset : Int)
    (transport_types : Option (List TransportType)) (u : Upstream) :
    Except PyError (List DepartureRecord) :=
  if !valid_station_id station_id then
    .error (.valueError "Invalid format of global staton id.")
  else
    tryMvg "Bad MVG API call: Invalid departure data"
      (do
        let tts := match transport_types with | none => TransportType.all | some l => l
        let result ← api (endpointUrl .FIB_DEPARTURE)
          (u .FIB_DEPARTURE (depArgs station_id limit offset tts))
        let ds ← assertList result
        ds.mapM parseDeparture)

/-- The state of a constructed MvgApi object: the station_id attribute is
set only when the constructor resolved a station (the source assigns it
inside if station_details:). -/
structure MvgApiObj where
  station_id : Option Json

/-- MvgApi.__init__ of the source: strip, format check (ValueError on
failure), resolve via the blocking station lookup; the attribute is
assigned only when a station was found, an unresolved station is silently
skipped. -/
def init (stationArg : String) (u : Upstream) : Except PyError MvgApiObj :=
  let s := pyStrip stationArg
  if !valid_station_id s then
    .error (.valueError "Invalid station.")
  else
    Except.map
      (fun details =>
        match details with
        | some d => MvgApiObj.mk (some d.id)
        | none => MvgApiObj.mk none)
      (station s u)

/-- The bound departures method: departures_async on the stored
station_id; a missing attribute raises AttributeError, a non-string value
would reach re.match and raise TypeError. -/
def MvgApiObj.departures (o : MvgApiObj) (limit offset : Int)
    (transport_types : Option (List TransportType)) (u : Upstream) :
    Except PyError (List DepartureRecord) :=
  match o.station_id with
  | none => .error (.attributeError "station_id")
  | some (Json.str s) => departures_async s limit offset transport_types u
  | some _ => .error (.typeError "expected string or bytes-like object")

end MvgApi

/-- Upstream fixture: the locations endpoint answers with an empty list,
every other endpoint fails at the transport level. -/
def u1 : Upstream := fun e _ =>
  match e with
  | .FIB_LOCATION => .ok ⟨200, "application/json", "", Json.arr []⟩
  | _ => .clientError "ClientConnectorError"

/-- Upstream fixture: the lines endpoint answers with a one-element list,
every other endpoint with an empty list. -/
def u2 : Upstream := fun e _ =>
  match e with
  | .ZDM_LINES => .ok ⟨200, "application/json", "", Json.arr [Json.str "L1"]⟩
  | _ => .ok ⟨200, "application/json", "", Json.arr []⟩

/-- A nearby location with its own coordinates 1, 10. -/
def loc3a : Json := .obj
  [("globalId", .str "s1"), ("name", .str "n1"), ("place", .str "p1"),
   ("latitude", .num 1), ("longitude", .num 10),
   ("transportTypes", .arr [.str "UBAHN"])]

/-- A nearby location with its own coordinates 2, 20. -/
def loc3b : Json := .obj
  [("globalId", .str "s2"), ("name", .str "n2"), ("place", .str "p2"),
   ("latitude", .num 2), ("longitude", .num 20),
   ("transportTypes", .arr [.str "UBAHN"])]

/-- Upstream fixture: the nearby endpoint lists the two locations above. -/
def u3 : Upstream := fun e _ =>
  match e with
  | .FIB_NEARBY => .ok ⟨200, "application/json", "", Json.arr [loc3a, loc3b]⟩
  | _ => .clientError "ClientConnectorError"

/-- Upstream fixture: every endpoint answers 200 with a JSON string body,
a shape no parser of the module accepts. -/
def u4 : Upstream := fun _ _ => .ok ⟨200, "application/json", "", Json.str "oops"⟩

/-- Upstream fixture: every endpoint answers 200 with an empty JSON list. -/
def uArrEmpty : Upstream := fun _ _ => .ok ⟨200, "application/json", "", Json.arr []⟩

/-- A raw departure entry with the timestamps of the spec scenario. -/
def entry8 : Json := .obj
  [("realtimeDepartureTime", .num 1668524580000),
   ("plannedDepartureTime", .num 1668524460000),
   ("label", .str "U3"), ("destination", .str "FW"),
   ("transportType", .str "UBAHN"), ("cancelled", .bool false),
   ("messages", .arr [])]

/-- The departure record the source builds from entry8. -/
def dep8 : DepartureRecord :=
  ⟨pyInt ((1668524580000 : Rat) / 1000), pyInt ((1668524460000 : Rat) / 1000),
   .str "U3", .str "FW", "U-Bahn", "mdi:subway", .bool false, .arr []⟩

/-- Upstream fixture parameterized by the station-id payload. -/
def idsUpstream (ss : List String) : Upstream :=
  fun _ _ => .ok ⟨200, "application/json", "", Json.arr (ss.map Json.str)⟩

/-- Length of a successful list result, 0 on error; a separating function
for inequalities between results. -/
def lenOf : Except PyError (List Json) → Nat
  | .ok l => l.length
  | .error _ => 0

theorem takeWhile_append_cons (p : Char → Bool) (a : List Char) (x : Char) (t : List Char)
    (ha : ∀ c ∈ a, p c = true) (hx : p x = false) :
    (a ++ x :: t).takeWhile p = a ∧ (a ++ x :: t).dropWhile p = x :: t := by
  induction a with
  | nil => simp [List.takeWhile_cons, List.dropWhile_cons, hx]
  | cons c cs ih =>
    have hc : p c = true := ha c (by simp)
    have ih2 := ih (fun d hd => ha d (by simp [hd]))
    simp [List.takeWhile_cons, List.dropWhile_cons, hc, ih2.1, ih2.2]

theorem mem_takeWhile_p {p : Char → Bool} {l : List Char} {c : Char}
    (h : c ∈ l.takeWhile p) : p c = true := by
  induction l with
  | nil => simp [List.takeWhile] at h
  | cons d ds ih =>
    rw [List.takeWhile_cons] at h
    by_cases hd : p d
    · simp [hd] at h
      rcases h with h | h
      · exact h ▸ hd
      · exact ih h
    · simp [hd] at h

theorem vdvScan_iff (l : List Char) : vdvScan l = true ↔ VdvAt0 l := by
  constructor
  · intro h
    match l with
    | [] => simp [vdvScan] at h
    | [c1] => simp [vdvScan] at h
    | [c1, c2] => simp [vdvScan] at h
    | c1 :: c2 :: c3 :: rest =>
      rw [vdvScan] at h
      simp only [Bool.and_eq_true, beq_iff_eq, decide_eq_true_eq, and_assoc] at h
      obtain ⟨h1, h2, h3, h4, h5, h6⟩ := h
      subst h1; subst h2; subst h3
      revert h6
      cases hdw : rest.dropWhile Char.isDigit with
      | nil => intro h6; simp [vdvTail] at h6
      | cons c4 t4 =>
        cases t4 with
        | nil => intro h6; simp [vdvTail] at h6
        | cons c5 t5 =>
          intro h6
          simp only [vdvTail, Bool.and_eq_true, beq_iff_eq] at h6
          obtain ⟨h7, h8⟩ := h6
          subst h7
          refine ⟨rest.takeWhile Char.isDigit, [c5], t5, ?_, ?_, h4, h5, ?_, by simp⟩
          · have hsplit := List.takeWhile_append_dropWhile (p := Char.isDigit) (l := rest)
            rw [hdw] at hsplit
            simp only [List.cons_append, List.nil_append]
            rw [hsplit]
          · intro c hc
            exact mem_takeWhile_p hc
          · intro c hc
            simp only [List.mem_singleton] at hc
            exact hc ▸ h8
  · rintro ⟨a, b, r, heq, ha, h2, h5, hb, hbne⟩
    subst heq
    obtain ⟨c5, t5, rfl⟩ : ∃ c5 t5, b = c5 :: t5 := by
      cases b with
      | nil => exact absurd rfl hbne
      | cons c5 t5 => exact ⟨c5, t5, rfl⟩
    have hcolon : Char.isDigit ':' = false := by decide
    have htw := takeWhile_append_cons Char.isDigit a ':' (c5 :: t5 ++ r) ha hcolon
    rw [vdvScan, htw.1, htw.2]
    simp [vdvTail, List.cons_append, h2, h5, hb c5 (by simp)]

theorem vdvFullScan_iff (l : List Char) : vdvFullScan l = true ↔ VdvFull l := by
  constructor
  · intro h
    match l with
    | [] => simp [vdvFullScan] at h
    | [c1] => simp [vdvFullScan] at h
    | [c1, c2] => simp [vdvFullScan] at h
    | c1 :: c2 :: c3 :: rest =>
      rw [vdvFullScan] at h
      simp only [Bool.and_eq_true, beq_iff_eq, decide_eq_true_eq, and_assoc] at h
      obtain ⟨h1, h2, h3, h4, h5, h6⟩ := h
      subst h1; subst h2; subst h3
      revert h6
      cases hdw : rest.dropWhile Char.isDigit with
      | nil => intro h6; simp [vdvFullTail] at h6
      | cons c4 tail2 =>
        intro h6
        simp only [vdvFullTail, Bool.and_eq_true, beq_iff_eq, Bool.not_eq_true',
          List.all_eq_true, and_assoc] at h6
        obtain ⟨h7, h8, h9⟩ := h6
        subst h7
        have hne : tail2 ≠ [] := by
          intro hn
          subst hn
          simp at h8
        refine ⟨rest.takeWhile Char.isDigit, tail2, ?_, ?_, h4, h5, h9, hne⟩
        · have hsplit := List.takeWhile_append_dropWhile (p := Char.isDigit) (l := rest)
          rw [hdw] at hsplit
          rw [hsplit]
        · intro c hc
          exact mem_takeWhile_p hc
  · rintro ⟨a, b, heq, ha, h2, h5, hb, hbne⟩
    subst heq
    obtain ⟨c5, t5, rfl⟩ : ∃ c5 t5, b = c5 :: t5 := by
      cases b with
      | nil => exact absurd rfl hbne
      | cons c5 t5 => exact ⟨c5, t5, rfl⟩
    have hcolon : Char.isDigit ':' = false := by decide
    have htw := takeWhile_append_cons Char.isDigit a ':' (c5 :: t5) ha hcolon
    rw [vdvFullScan, htw.1, htw.2]
    simp [vdvFullTail, h2, h5, List.all_eq_true, hb c5 (by simp)]
    exact fun c hc => hb c (List.mem_cons_of_mem c5 hc)


theorem except_bind_ok {α β : Type} (a : α) (f : α → Except PyError β) :
    (Except.ok a : Except PyError α) >>= f = f a := rfl

theorem except_bind_err {α β : Type} (e : PyError) (f : α → Except PyError β) :
    (Except.error e : Except PyError α) >>= f = Except.error e := rfl

theorem tryMvg_error_map {α β : Type} (m : String) (e : PyError) (f : α → β) :
    Except.map f (tryMvg m (Except.error e : Except PyError α)) =
      tryMvg m (Except.error e : Except PyError β) := by
  cases e <;> rfl

theorem allStrs_map_str (ss : List String) : allStrs (ss.map Json.str) = some ss := by
  induction ss with
  | nil => rfl
  | cons s rest ih => simp [allStrs, List.map_cons, ih]

theorem nearby_multi_limit_eq (latitude longitude : Rat)
    (tt : Option (List TransportType)) (limit : Int) (u : Upstream) :
    MvgApi.nearby_multi_async latitude longitude tt limit u =
      Except.map (fun sts => if limit < 0 then sts else sts.take limit.toNat)
        (MvgApi.nearby_multi_async latitude longitude tt (-1) u) := by
  unfold MvgApi.nearby_multi_async
  cases hS : MvgApi.nearby_multi_stations latitude longitude tt u with
  | error e =>
    simp only [hS, except_bind_err]
    exact (tryMvg_error_map _ e _).symm
  | ok sts =>
    simp only [hS, except_bind_ok]
    rw [if_pos (by norm_num : (-1 : Int) < 0)]
    by_cases hl : limit < 0
    · simp only [hl, if_true]
      rfl
    · simp only [hl, if_false]
      rfl

/-- C1: on the station id de:09162:99999, which is syntactically valid but
which the upstream location search does not resolve (empty result list),
the constructor does not fail: station resolution returns None, the
constructor returns normally with the station_id attribute never assigned,
and using the object afterwards raises AttributeError.  This contradicts
the claim that construction must fail whenever resolution returns null. -/
theorem mvg_C1_code :
    MvgApi.station "de:09162:99999" u1 = .ok none ∧
    MvgApi.init "de:09162:99999" u1 = .ok ⟨none⟩ ∧
    MvgApi.MvgApiObj.departures ⟨none⟩ 10 0 none u1 =
      .error (.attributeError "station_id") :=
  ⟨rfl, rfl, rfl⟩

/-- C2: on an upstream whose lines endpoint returns one line and whose
stations endpoint returns an empty list, the blocking lines wrapper
returns the stations result, not the lines result: its body calls
asyncio.run(MvgApi.stations_async()) (source line 217), so it is not
equivalent to running lines_async to completion. -/
theorem mvg_C2_code :
    MvgApi.lines u2 = .ok [] ∧
    MvgApi.lines_async u2 = .ok [Json.str "L1"] ∧
    MvgApi.lines u2 ≠ MvgApi.lines_async u2 := by
  refine ⟨rfl, rfl, fun h => ?_⟩
  exact absurd (congrArg lenOf h) (by decide)

/-- C3: on an upstream nearby payload listing two matching locations with
different coordinates, every returned record carries the latitude and
longitude of the FIRST listed location (the source reads result[0] inside
the loop): the second record reports latitude 1 and longitude 10 although
its own location loc3b advertises latitude 2 and longitude 20.  This
contradicts the claim that each record carries the location's own
coordinates; the rest of the claim (order, filter, ids, first-match) is
visible in the evaluation. -/
theorem mvg_C3_code :
    MvgApi.nearby_multi_async 48 11 none (-1) u3 =
      .ok [⟨.str "s1", .str "n1", .str "p1", .num 1, .num 10, some ["U-Bahn"]⟩,
           ⟨.str "s2", .str "n2", .str "p2", .num 1, .num 10, some ["U-Bahn"]⟩] ∧
    jget loc3b "latitude" = .ok (.num 2) ∧
    jget loc3b "longitude" = .ok (.num 20) ∧
    MvgApi.nearby_async 48 11 none u3 =
      .ok (some ⟨.str "s1", .str "n1", .str "p1", .num 1, .num 10, some ["U-Bahn"]⟩) :=
  ⟨rfl, rfl, rfl, rfl⟩

/-- C4 counterexample: a transport-level failure (HTTP 500) and a
transport-level success with a wrong JSON shape (lines endpoint answering
a string instead of a list) raise errors of the SAME exception kind
MvgApiError, so they are not two distinguishable kinds as the claim
states. -/
theorem mvg_C4_counter :
    pyErrKind (MvgApi.api (endpointUrl .ZDM_LINES)
      (.ok ⟨500, "application/json", "server error", Json.null⟩)) = some ErrKind.mvgApi ∧
    pyErrKind (MvgApi.lines_async u4) = some ErrKind.mvgApi :=
  ⟨rfl, rfl⟩

/-- C4 amended: transport-level failures (non-200 status, wrong content
type, client exception) and transport-level successes with a wrong JSON
shape (non-list body, entry with a missing key) all raise the single kind
MvgApiError; a caller can tell them apart from the caller-input kind
ValueError, but not from each other without inspecting the message text. -/
theorem mvg_C4_amended :
    (∀ url exc, pyErrKind (MvgApi.api url (.clientError exc)) = some ErrKind.mvgApi) ∧
    (∀ url r, r.status ≠ 200 →
      pyErrKind (MvgApi.api url (.ok r)) = some ErrKind.mvgApi) ∧
    (∀ url r, r.contentType ≠ "application/json" →
      pyErrKind (MvgApi.api url (.ok r)) = some ErrKind.mvgApi) ∧
    (∀ bt j, j.isArr = false →
      pyErrKind (MvgApi.departures_async "de:09162:70" 10 0 none
        (fun _ _ => .ok ⟨200, "application/json", bt, j⟩)) = some ErrKind.mvgApi) ∧
    (∀ bt, pyErrKind (MvgApi.departures_async "de:09162:70" 10 0 none
      (fun _ _ => .ok ⟨200, "application/json", bt, .arr [.obj []]⟩)) =
        some ErrKind.mvgApi) ∧
    ErrKind.mvgApi ≠ ErrKind.value := by
  refine ⟨fun url exc => rfl, ?_, ?_, ?_, fun bt => rfl, by decide⟩
  · intro url r h
    simp [MvgApi.api, pyErrKind, h]
  · intro url r h
    by_cases h200 : r.status = 200
    · simp [MvgApi.api, pyErrKind, h200, h]
    · simp [MvgApi.api, pyErrKind, h200]
  · intro bt j hj
    cases j with
    | arr xs => simp [Json.isArr] at hj
    | null => rfl
    | bool b => rfl
    | num q => rfl
    | str s => rfl
    | obj kvs => rfl

/-- C4 witness: the amended theorem applied to the concrete inputs 404
with text/html content and a 200 response whose body is a JSON string. -/
theorem mvg_C4_witness :
    pyErrKind (MvgApi.api (endpointUrl .ZDM_LINES)
      (.ok ⟨404, "text/html", "not found", Json.null⟩)) = some ErrKind.mvgApi ∧
    pyErrKind (MvgApi.departures_async "de:09162:70" 10 0 none
      (fun _ _ => .ok ⟨200, "application/json", "", Json.str "x"⟩)) =
        some ErrKind.mvgApi :=
  ⟨mvg_C4_amended.2.1 (endpointUrl .ZDM_LINES)
      ⟨404, "text/html", "not found", Json.null⟩ (by decide),
   mvg_C4_amended.2.2.2.1 "" (Json.str "x") rfl⟩

/-- C5 counterexample: the string de:12:3x is accepted by
valid_station_id (re.match is anchored at the start only), yet it does not
match the pattern de:[0-9]{2,5}:[0-9]+ as a whole string, refuting the
claimed equivalence. -/
theorem mvg_C5_counter :
    MvgApi.valid_station_id "de:12:3x" = true ∧ ¬ VdvFull ("de:12:3x".data) :=
  ⟨rfl, fun h => absurd ((vdvFullScan_iff _).mpr h) (by decide)⟩

/-- C5 amended: valid_station_id without existence validation returns true
exactly when a PREFIX of the input matches de:[0-9]{2,5}:[0-9]+, that is
the string starts with de, a colon, 2 to 5 digits, a colon and at least
one digit, with arbitrary text allowed after; it is a pure function of the
string, performing no network call for any input. -/
theorem mvg_C5_amended (s : String) :
    MvgApi.valid_station_id s = true ↔ VdvAt0 s.data :=
  vdvScan_iff s.data

/-- C5 witness: the amended equivalence applied at the concrete id
de:09162:70. -/
theorem mvg_C5_witness : VdvAt0 ("de:09162:70".data) :=
  (mvg_C5_amended "de:09162:70").mp rfl

/-- C6 counterexample: de:12:3x does not match the pattern as a whole
string, yet valid_station_id returns true and departures_async proceeds to
the network and returns the upstream departures instead of raising
ValueError, refuting the claim for strings that merely start with a
matching prefix. -/
theorem mvg_C6_counter :
    ¬ VdvFull ("de:12:3x".data) ∧
    MvgApi.valid_station_id "de:12:3x" = true ∧
    MvgApi.departures_async "de:12:3x" 10 0 none uArrEmpty = .ok [] :=
  ⟨fun h => absurd ((vdvFullScan_iff _).mpr h) (by decide), rfl, rfl⟩

/-- C6 amended: for every string in which no prefix matches the pattern
de:[0-9]{2,5}:[0-9]+, valid_station_id returns false and departures_async
raises ValueError (the caller-input kind, distinct from MvgApiError), with
the same outcome for every upstream oracle: no network interaction can
influence or precede the failure. -/
theorem mvg_C6_amended (s : String) (h : ¬ VdvAt0 s.data) :
    MvgApi.valid_station_id s = false ∧
    ∀ (limit offset : Int) (tt : Option (List TransportType)) (u : Upstream),
      MvgApi.departures_async s limit offset tt u =
        .error (.valueError "Invalid format of global staton id.") := by
  have hv : MvgApi.valid_station_id s = false := by
    cases hb : MvgApi.valid_station_id s
    · rfl
    · exact absurd ((vdvScan_iff s.data).mp hb) h
  refine ⟨hv, fun limit offset tt u => ?_⟩
  simp [MvgApi.departures_async, hv]

/-- C6 witness: the amended theorem applied at the concrete string x. -/
theorem mvg_C6_witness :
    MvgApi.valid_station_id "x" = false ∧
    MvgApi.departures_async "x" 10 0 none uArrEmpty =
      .error (.valueError "Invalid format of global staton id.") := by
  have h := mvg_C6_amended "x" (fun hp => absurd ((vdvScan_iff _).mpr hp) (by decide))
  exact ⟨h.1, h.2 10 0 none uArrEmpty⟩

/-- C7: for every upstream oracle and limit N at least 0,
nearby_multi_async with limit N equals the unlimited result truncated to
its first N entries (hence a prefix of it, in the same order, of length at
most N), and every negative limit returns the full unlimited result. -/
theorem mvg_C7 (latitude longitude : Rat) (tt : Option (List TransportType)) (u : Upstream) :
    (∀ N : Int, 0 ≤ N →
      MvgApi.nearby_multi_async latitude longitude tt N u =
        Except.map (List.take N.toNat)
          (MvgApi.nearby_multi_async latitude longitude tt (-1) u) ∧
      ∀ r, MvgApi.nearby_multi_async latitude longitude tt N u = .ok r →
        r.length ≤ N.toNat ∧
        ∀ full, MvgApi.nearby_multi_async latitude longitude tt (-1) u = .ok full →
          r = full.take N.toNat) ∧
    (∀ M : Int, M < 0 →
      MvgApi.nearby_multi_async latitude longitude tt M u =
        MvgApi.nearby_multi_async latitude longitude tt (-1) u) := by
  constructor
  · intro N hN
    have hnotlt : ¬ N < 0 := not_lt.mpr hN
    have hfun : (fun sts : List StationRecord =>
        if N < 0 then sts else sts.take N.toNat) = List.take N.toNat :=
      funext fun sts => by rw [if_neg hnotlt]
    have heq := nearby_multi_limit_eq latitude longitude tt N u
    rw [hfun] at heq
    refine ⟨heq, fun r hr => ?_⟩
    cases hfull : MvgApi.nearby_multi_async latitude longitude tt (-1) u with
    | error e =>
      rw [heq, hfull] at hr
      exact absurd hr (by simp [Except.map])
    | ok full =>
      rw [heq, hfull] at hr
      simp only [Except.map] at hr
      injection hr with hr'
      refine ⟨?_, fun full2 hfull2 => ?_⟩
      · rw [← hr', List.length_take]
        exact min_le_left _ _
      · injection hfull2 with h2
        rw [← h2]
        exact hr'.symm
  · intro M hM
    have heq := nearby_multi_limit_eq latitude longitude tt M u
    have hfun : (fun sts : List StationRecord =>
        if M < 0 then sts else sts.take M.toNat) = id :=
      funext fun sts => by rw [if_pos hM]; rfl
    rw [hfun] at heq
    rw [heq]
    cases MvgApi.nearby_multi_async latitude longitude tt (-1) u <;> rfl

/-- C7 witness: the limit equation applied at the concrete payload u3 with
N equal to 1. -/
theorem mvg_C7_witness :
    MvgApi.nearby_multi_async 48 11 none 1 u3 =
      Except.map (List.take (Int.toNat 1)) (MvgApi.nearby_multi_async 48 11 none (-1) u3) :=
  ((mvg_C7 48 11 none u3).1 1 (by decide)).1

/-- C8: every departure record built by the departure loop carries as time
and planned exactly the raw epoch-millisecond values divided by 1000 and
truncated to an integer (pyInt is truncation toward zero), and
departures_async returns exactly the records the loop builds. -/
theorem mvg_C8 :
    (∀ (entry : Json) (r p : Rat) (d : DepartureRecord),
      jget entry "realtimeDepartureTime" = .ok (.num r) →
      jget entry "plannedDepartureTime" = .ok (.num p) →
      parseDeparture entry = .ok d →
      d.time = pyInt (r / 1000) ∧ d.planned = pyInt (p / 1000)) ∧
    (∀ (bt : String) (entry : Json) (d : DepartureRecord),
      parseDeparture entry = .ok d →
      MvgApi.departures_async "de:09162:70" 10 0 none
        (fun _ _ => .ok ⟨200, "application/json", bt, .arr [entry]⟩) = .ok [d]) := by
  constructor
  · intro entry r p d hr hp hd
    rw [parseDeparture, hr] at hd
    simp only [except_bind_ok] at hd
    rw [show pyDiv1000 (Json.num r) = .ok (r / 1000) from rfl] at hd
    simp only [except_bind_ok] at hd
    rw [hp] at hd
    simp only [except_bind_ok] at hd
    rw [show pyDiv1000 (Json.num p) = .ok (p / 1000) from rfl] at hd
    simp only [except_bind_ok] at hd
    cases h1 : jget entry "label" with
    | error e => rw [h1] at hd; simp only [except_bind_err] at hd; exact Except.noConfusion hd
    | ok line =>
    rw [h1] at hd; simp only [except_bind_ok] at hd
    cases h2 : jget entry "destination" with
    | error e => rw [h2] at hd; simp only [except_bind_err] at hd; exact Except.noConfusion hd
    | ok dest =>
    rw [h2] at hd; simp only [except_bind_ok] at hd
    cases h3 : jget entry "transportType" with
    | error e => rw [h3] at hd; simp only [except_bind_err] at hd; exact Except.noConfusion hd
    | ok tj1 =>
    rw [h3] at hd; simp only [except_bind_ok] at hd
    cases h4 : ttLookup tj1 with
    | error e => rw [h4] at hd; simp only [except_bind_err] at hd; exact Except.noConfusion hd
    | ok tt1 =>
    rw [h4] at hd; simp only [except_bind_ok] at hd
    cases h5 : jget entry "cancelled" with
    | error e => rw [h5] at hd; simp only [except_bind_err] at hd; exact Except.noConfusion hd
    | ok cancelled =>
    rw [h5] at hd; simp only [except_bind_ok] at hd
    cases h6 : jget entry "messages" with
    | error e => rw [h6] at hd; simp only [except_bind_err] at hd; exact Except.noConfusion hd
    | ok messages =>
    rw [h6] at hd; simp only [except_bind_ok] at hd
    injection hd with hd'
    rw [← hd']
    exact ⟨rfl, rfl⟩
  · intro bt entry d hd
    rw [show MvgApi.departures_async "de:09162:70" 10 0 none
        (fun _ _ => .ok ⟨200, "application/json", bt, .arr [entry]⟩) =
      tryMvg "Bad MVG API call: Invalid departure data"
        ([entry].mapM parseDeparture) from rfl]
    rw [show ([entry].mapM parseDeparture : Except PyError (List DepartureRecord)) =
      parseDeparture entry >>= fun b => List.mapM.loop parseDeparture [] [b] from rfl]
    rw [hd]
    simp only [except_bind_ok]
    rfl

/-- C8 witness: the conversion theorem applied at the concrete entry with
raw timestamps 1668524580000 and 1668524460000; the spec example value
1668524580 is reached by truncation. -/
theorem mvg_C8_witness :
    dep8.time = pyInt (1668524580000 / 1000) ∧
    dep8.planned = pyInt (1668524460000 / 1000) ∧
    dep8.time = 1668524580 ∧
    MvgApi.departures_async "de:09162:70" 10 0 none
      (fun _ _ => .ok ⟨200, "application/json", "", .arr [entry8]⟩) = .ok [dep8] := by
  have h1 := mvg_C8.1 entry8 1668524580000 1668524460000 dep8 rfl rfl rfl
  have h2 := mvg_C8.2 "" entry8 dep8 rfl
  refine ⟨h1.1, h1.2, ?_, h2⟩
  show pyInt ((1668524580000 : Rat) / 1000) = 1668524580
  have hq : (1668524580000 : Rat) / 1000 = (1668524580 : Rat) := by norm_num
  rw [hq]
  rfl

/-- C9: TransportType.all is the seven declared variants other than SEV,
each exactly once (count 1 for every non-SEV variant, 0 for SEV), and this
collection is the default filter: passing no transport types gives the
same result as passing TransportType.all explicitly, in departures_async,
nearby_async and nearby_multi_async, for every upstream oracle. -/
theorem mvg_C9 :
    TransportType.all =
      [.BAHN, .SBAHN, .UBAHN, .TRAM, .BUS, .REGIONAL_BUS, .SCHIFF] ∧
    (∀ t : TransportType, TransportType.all.count t = if t = .SEV then 0 else 1) ∧
    (∀ (s : String) (limit offset : Int) (u : Upstream),
      MvgApi.departures_async s limit offset none u =
        MvgApi.departures_async s limit offset (some TransportType.all) u) ∧
    (∀ (latitude longitude : Rat) (u : Upstream),
      MvgApi.nearby_async latitude longitude none u =
        MvgApi.nearby_async latitude longitude (some TransportType.all) u) ∧
    (∀ (latitude longitude : Rat) (limit : Int) (u : Upstream),
      MvgApi.nearby_multi_async latitude longitude none limit u =
        MvgApi.nearby_multi_async latitude longitude (some TransportType.all) limit u) := by
  refine ⟨rfl, ?_, fun s l o u => rfl, fun la lo u => rfl, fun la lo lim u => rfl⟩
  intro t
  cases t <;> decide

/-- C10: for every upstream payload that is a list of station-id strings,
station_ids_async returns exactly those strings sorted in ascending
lexicographic order: a sorted permutation of the upstream list, not the
upstream order. -/
theorem mvg_C10 (ss : List String) :
    ∃ r : List String,
      MvgApi.station_ids_async (idsUpstream ss) = .ok (r.map Json.str) ∧
      List.Perm r ss ∧ List.Sorted (fun a b : String => a ≤ b) r := by
  refine ⟨List.insertionSort (fun a b => a ≤ b) ss, ?_, ?_, ?_⟩
  · rw [show MvgApi.station_ids_async (idsUpstream ss) =
      tryMvg "Bad API call: Could not parse station data"
        (pySortedStrs (ss.map Json.str)) from rfl]
    rw [pySortedStrs, allStrs_map_str]
    rfl
  · exact List.perm_insertionSort _ ss
  · exact List.sorted_insertionSort _ ss
